import Mathlib

/-!
Verification of the proxmox-packer intent-resolution pipeline.

This file is a shallow embedding of the Python sources under src/agent/:
models.py (ClusterSpec and derived IP accessors), intent_parser_llm.py
(JSON extraction from the LLM reply and conversion to a ClusterSpec),
orchestrator.py (the staged provisioning pipeline) and proxmox_client.py
(best-effort resource discovery).  Parsed JSON documents are modelled by
the inductive type JValue; Python dynamic values flowing out of
json.loads are JValue, Python ints are Int, Python strings are String or
List Char, and code that can raise returns Except.
-/

/-- A parsed JSON value, as produced by json.loads.  JSON numbers are
modelled as integers only; the backend contract requests integer fields
and no claim depends on float payloads. -/
inductive JValue where
  | jnull : JValue
  | jbool : Bool → JValue
  | jint : Int → JValue
  | jstr : String → JValue
  | jarr : List JValue → JValue
  | jobj : List (String × JValue) → JValue
deriving Repr

/-- Python exception classes raised by the conversion code:
ValueError (also covering json.JSONDecodeError) and TypeError. -/
inductive PyErr where
  | valueError : PyErr
  | typeError : PyErr
deriving Repr, DecidableEq

/-- Python truthiness of a parsed JSON value, as used by
`if data.get(k):` in _json_to_spec. -/
def truthy : JValue → Bool
  | .jnull => false
  | .jbool b => b
  | .jint n => n != 0
  | .jstr s => s != ""
  | .jarr xs => !xs.isEmpty
  | .jobj fs => !fs.isEmpty

/-- Python equality between a parsed JSON value and a string literal
(only equal strings compare equal; values of other types are unequal). -/
def pyEqStr : JValue → String → Bool
  | .jstr s, t => s == t
  | _, _ => false

/-- Decimal digit characters of a natural number, most significant first,
modelling the rendering used by Python str(int). -/
def natChars (n : Nat) : List Char :=
  if n = 0 then ['0'] else ((Nat.digits 10 n).map Nat.digitChar).reverse

/-- Decimal rendering of a natural number. -/
def natStr (n : Nat) : String := String.mk (natChars n)

/-- Decimal rendering of an integer, modelling Python str(int) /
f-string interpolation of an int. -/
def intStr (n : Int) : String :=
  if n < 0 then String.mk ('-' :: natChars n.natAbs) else String.mk (natChars n.natAbs)

/-- Rendering core for Python str()/repr() of a parsed JSON value.  The
Bool selects repr mode (strings quoted, as inside containers).  The fuel
argument only bounds container nesting so the recursion is structural;
callers pass sizeOf, which always exceeds the nesting depth, so the
fuel-exhausted container cases are never reached.  String repr is
modelled without escape handling; no claim depends on container
rendering. -/
def pyRender : Nat → Bool → JValue → String
  | _, _, .jnull => "None"
  | _, _, .jbool true => "True"
  | _, _, .jbool false => "False"
  | _, _, .jint n => intStr n
  | _, false, .jstr s => s
  | _, true, .jstr s => "\x27" ++ s ++ "\x27"
  | 0, _, .jarr _ => ""
  | Nat.succ fuel, _, .jarr xs =>
    "[" ++ String.intercalate ", " (xs.map fun x => pyRender fuel true x) ++ "]"
  | 0, _, .jobj _ => ""
  | Nat.succ fuel, _, .jobj fs =>
    "\x7b" ++ String.intercalate ", "
      (fs.map fun kv => "\x27" ++ kv.1 ++ "\x27: " ++ pyRender fuel true kv.2) ++ "\x7d"

/-- Python str() of a parsed JSON value, used for f-string interpolation
in _json_to_spec (lines 102 and 135).  The fuel 1000 mirrors the CPython
recursion limit that bounds rendering of nested containers. -/
def pyStr (v : JValue) : String := pyRender 1000 false v

/-- Python repr() of a parsed JSON value. -/
def pyRepr (v : JValue) : String := pyRender 1000 true v

/-- Python whitespace characters, the set stripped by str.strip() and
matched by the regex class backslash-s. -/
def pySpace (c : Char) : Bool :=
  c == ' ' || c == '\t' || c == '\n' || c == '\r' || c == Char.ofNat 11 || c == Char.ofNat 12

/-- ASCII decimal digit test. -/
def isDigit (c : Char) : Bool := '0' ≤ c && c ≤ '9'

/-- Tail of a valid Python integer literal body: digits with single
underscores allowed only between digits. -/
def validTail : List Char → Bool
  | [] => true
  | c :: rest =>
    if isDigit c then validTail rest
    else if c = '_' then
      match rest with
      | d :: _ => isDigit d && validTail rest
      | [] => false
    else false

/-- A valid Python integer literal body: nonempty, starts with a digit,
underscores only between digits. -/
def validDigits : List Char → Bool
  | [] => false
  | c :: rest => isDigit c && validTail rest

/-- Numeric value of a digit/underscore sequence, ignoring underscores. -/
def digitsVal (cs : List Char) : Nat :=
  cs.foldl (fun acc c => if isDigit c then acc * 10 + (c.toNat - 48) else acc) 0

/-- Python int(str): strip whitespace, optional sign, digits with
underscores between digits; raises ValueError otherwise. -/
def pyIntOfString (s : String) : Except PyErr Int :=
  let cs := ((s.data.dropWhile pySpace).reverse.dropWhile pySpace).reverse
  match cs with
  | '-' :: rest => if validDigits rest then .ok (-(digitsVal rest : Int)) else .error .valueError
  | '+' :: rest => if validDigits rest then .ok (digitsVal rest : Int) else .error .valueError
  | rest => if validDigits rest then .ok (digitsVal rest : Int) else .error .valueError

/-- Python int() applied to a parsed JSON value: ints pass through,
bools coerce to 0/1, strings are parsed (ValueError on failure), and
None, lists and dicts raise TypeError. -/
def pyInt : JValue → Except PyErr Int
  | .jint n => .ok n
  | .jbool b => .ok (if b then 1 else 0)
  | .jstr s => pyIntOfString s
  | .jnull => .error .typeError
  | .jarr _ => .error .typeError
  | .jobj _ => .error .typeError

/-- Python list() applied to a parsed JSON value, as in
`spec.addons = list(data["addons"])` (line 140): lists copy, strings
yield their characters, dicts yield their keys, and non-iterable values
raise TypeError. -/
def pyList : JValue → Except PyErr (List JValue)
  | .jarr xs => .ok xs
  | .jstr s => .ok (s.data.map fun c => .jstr (String.mk [c]))
  | .jobj fs => .ok (fs.map fun kv => .jstr kv.1)
  | _ => .error .typeError

/-- NodeSpec from models.py: hardware profile of one cluster role. -/
structure NodeSpec where
  cores : Int := 2
  memory_mb : Int := 2048
  disk_size : String := "20G"
deriving Repr

/-- ClusterSpec from models.py with its field defaults.  Fields that
receive raw values from the parsed backend JSON (name, cni_plugin,
k8s_version_minor, addons elements) keep type JValue, mirroring Python
dynamic assignment; purely internal strings are String. -/
structure ClusterSpec where
  name : JValue := .jstr "k8s-cluster"
  vm_name_prefix : String := "k8s-node"
  control_plane_count : Int := 1
  worker_count : Int := 2
  control_plane_spec : NodeSpec := { cores := 2, memory_mb := 4096 }
  worker_spec : NodeSpec := { cores := 2, memory_mb := 2048 }
  k8s_version_minor : JValue := .jstr "1.31"
  k8s_version_full : String := "1.31.4-1.1"
  pod_network_cidr : String := "10.244.0.0/16"
  cni_plugin : JValue := .jstr "flannel"
  ip_start : Int := 201
  ip_prefix : String := "10.40.19."
  ip_gateway : String := "10.40.19.254"
  dns_server : String := "10.40.2.1"
  network_bridge : String := "vmbr0"
  target_node : String := "pve1"
  template_id : Int := 990
  storage : String := "local-lvm"
  addons : List JValue := []
  ssh_user : String := "ubuntu"
  ssh_password : String := "ubuntu"
deriving Repr

/-- total_nodes property of ClusterSpec (models.py line 55). -/
def total_nodes (s : ClusterSpec) : Int := s.control_plane_count + s.worker_count

/-- control_plane_ips property (models.py lines 59-63): one address per
control plane, last octets starting at ip_start.  Python range over a
negative count is empty, matched here by Int.toNat. -/
def control_plane_ips (s : ClusterSpec) : List String :=
  (List.range s.control_plane_count.toNat).map fun i : Nat =>
    s.ip_prefix ++ intStr (s.ip_start + (i : Int))

/-- worker_ips property (models.py lines 66-71): worker addresses start
immediately after the control-plane block. -/
def worker_ips (s : ClusterSpec) : List String :=
  (List.range s.worker_count.toNat).map fun i : Nat =>
    s.ip_prefix ++ intStr (s.ip_start + s.control_plane_count + (i : Int))

/-- all_ips property (models.py line 75). -/
def all_ips (s : ClusterSpec) : List String := control_plane_ips s ++ worker_ips s

/-- Step 1 of _json_to_spec (lines 100-102): a truthy name is assigned
and also derives vm_name_prefix. -/
def applyName (data : List (String × JValue)) (spec : ClusterSpec) : ClusterSpec :=
  match data.lookup "name" with
  | some v =>
    if truthy v then { spec with name := v, vm_name_prefix := pyStr v ++ "-node" } else spec
  | none => spec

/-- int(data.get(k, d)): the default is used only when the key is
absent; a present value goes through Python int() and may raise. -/
def getIntOr (data : List (String × JValue)) (k : String) (d : Int) : Except PyErr Int :=
  match data.lookup k with
  | none => .ok d
  | some v => pyInt v

/-- Steps 2-5 of _json_to_spec (lines 104-117): topology, per-role
resources with the control-plane minimum floors, and ip_start. -/
def mkSpec1 (spec : ClusterSpec) (wc cpc wcores wmem ccores cmem ip_st : Int) : ClusterSpec :=
  { spec with
    worker_count := wc
    control_plane_count := cpc
    worker_spec := { spec.worker_spec with cores := wcores, memory_mb := wmem }
    control_plane_spec := { spec.control_plane_spec with
      cores := max ccores 2, memory_mb := max cmem 2048 }
    ip_start := ip_st }

/-- Step 5 of _json_to_spec (lines 119-123): a truthy cni_plugin is
assigned, and the value calico forces the calico pod network CIDR. -/
def applyCni (data : List (String × JValue)) (spec : ClusterSpec) : ClusterSpec :=
  match data.lookup "cni_plugin" with
  | some v =>
    if truthy v then
      let spec := { spec with cni_plugin := v }
      if pyEqStr v "calico" then { spec with pod_network_cidr := "192.168.0.0/16" } else spec
    else spec
  | none => spec

/-- The fixed minor-to-package version table of _json_to_spec
(lines 128-133). -/
def version_map : List (String × String) :=
  [("1.31", "1.31.4-1.1"), ("1.30", "1.30.8-1.1"),
   ("1.29", "1.29.12-1.1"), ("1.28", "1.28.15-1.1")]

/-- version_map.get(key, default): only string keys can hit the table. -/
def versionLookup : JValue → Option String
  | .jstr s => version_map.lookup s
  | _ => none

/-- Step 6 of _json_to_spec (lines 126-136): a truthy k8s_version is
assigned and k8s_version_full is resolved from the fixed table, with
the synthesized fallback for unknown minors. -/
def applyK8s (data : List (String × JValue)) (spec : ClusterSpec) : ClusterSpec :=
  match data.lookup "k8s_version" with
  | some v =>
    if truthy v then
      { spec with
        k8s_version_minor := v
        k8s_version_full := (versionLookup v).getD (pyStr v ++ ".0-1.1") }
    else spec
  | none => spec

/-- Step 7 of _json_to_spec (lines 139-140): a truthy addons value
replaces the list verbatim via Python list(), which may raise. -/
def applyAddons (data : List (String × JValue)) (spec : ClusterSpec) : Except PyErr ClusterSpec :=
  match data.lookup "addons" with
  | some v =>
    if truthy v then (pyList v).map fun l => { spec with addons := l }
    else .ok spec
  | none => .ok spec

/-- _json_to_spec (intent_parser_llm.py lines 95-142): convert the
parsed LLM JSON object into a ClusterSpec, defaulting absent fields and
enforcing the control-plane minimums.  Raising int()/list() coercions
surface as Except.error. -/
def json_to_spec (data : List (String × JValue)) : Except PyErr ClusterSpec :=
  let spec0 := applyName data {}
  (getIntOr data "worker_count" 2).bind fun wc =>
  (getIntOr data "control_plane_count" 1).bind fun cpc =>
  (getIntOr data "worker_cores" 2).bind fun wcores =>
  (getIntOr data "worker_memory_mb" 2048).bind fun wmem =>
  (getIntOr data "cp_cores" 2).bind fun ccores =>
  (getIntOr data "cp_memory_mb" 2048).bind fun cmem =>
  (getIntOr data "ip_start" 201).bind fun ip_st =>
  applyAddons data (applyK8s data (applyCni data (mkSpec1 spec0 wc cpc wcores wmem ccores cmem ip_st)))

/-- The numeric fields of the backend response, with their defaults,
as handled by _json_to_spec lines 104-117. -/
def numericKeys : List String :=
  ["worker_count", "control_plane_count", "worker_cores", "worker_memory_mb",
   "cp_cores", "cp_memory_mb", "ip_start"]

/-- The spec produced by resolving the empty backend object. -/
def resolvedEmpty : ClusterSpec := { control_plane_spec := { cores := 2, memory_mb := 2048 } }

/-- The spec produced by resolving an object carrying only cni_plugin calico. -/
def resolvedCalico : ClusterSpec :=
  { control_plane_spec := { cores := 2, memory_mb := 2048 }
    cni_plugin := .jstr "calico"
    pod_network_cidr := "192.168.0.0/16" }

/-- The spec produced by resolving an object carrying only k8s_version 1.30. -/
def resolved130 : ClusterSpec :=
  { control_plane_spec := { cores := 2, memory_mb := 2048 }
    k8s_version_minor := .jstr "1.30"
    k8s_version_full := "1.30.8-1.1" }

/-! ## LLM response unwrapping (_extract_json_from_response, lines 74-92) -/

/-- The backquote character used by markdown fences. -/
def backtick : Char := Char.ofNat 96

/-- Opening curly brace character. -/
def lbrace : Char := Char.ofNat 123

/-- Closing curly brace character. -/
def rbrace : Char := Char.ofNat 125

/-- Regex word character class (ASCII), as matched by the fence
language tag pattern. -/
def wordChar (c : Char) : Bool := c.isAlphanum || c == '_'

/-- Python str.strip(): drop whitespace from both ends. -/
def pyStrip (cs : List Char) : List Char :=
  ((cs.dropWhile pySpace).reverse.dropWhile pySpace).reverse

/-- Removal of the opening fence (line 80): the regex anchored at the
start drops three backquotes, then the greedy word-character language
tag, then greedy whitespace (which subsumes the optional newline).
Callers invoke this only when the text starts with three backquotes. -/
def stripOpenFence (cs : List Char) : List Char :=
  ((cs.drop 3).dropWhile wordChar).dropWhile pySpace

/-- Removal of the trailing fence (line 81): the pattern matches an
optional newline, three backquotes and trailing whitespace at the end of
the text; the unique match site is just before the maximal whitespace
suffix. -/
def stripCloseFence (cs : List Char) : List Char :=
  if (cs.reverse.dropWhile pySpace).take 3 = [backtick, backtick, backtick] then
    (if ((cs.reverse.dropWhile pySpace).drop 3).head? = some '\n'
      then ((cs.reverse.dropWhile pySpace).drop 3).drop 1
      else (cs.reverse.dropWhile pySpace).drop 3).reverse
  else cs

/-- The span from the first opening brace to the last closing brace
(lines 86-91); none models the raised ValueError when either brace is
absent. -/
def sliceBraces (cs : List Char) : Option (List Char) :=
  if lbrace ∈ cs ∧ rbrace ∈ cs then
    some ((cs.drop (cs.findIdx fun c => c == lbrace)).take
      ((cs.length - 1 - cs.reverse.findIdx fun c => c == rbrace) + 1 -
        cs.findIdx fun c => c == lbrace))
  else none

/-- _extract_json_from_response up to the json.loads call: strip, remove
markdown fences when the text starts with one, and cut the outermost
brace span. -/
def extract_json_str (text : List Char) : Option (List Char) :=
  sliceBraces (if (pyStrip text).take 3 = [backtick, backtick, backtick]
    then pyStrip (stripCloseFence (stripOpenFence (pyStrip text)))
    else pyStrip text)

/-- Markdown presentation wrapping of a backend reply: an opening fence
with a word-character language tag, the text, and an optional closing
fence. -/
def fenceWrap (lang : List Char) (closing : Bool) (t : List Char) : List Char :=
  [backtick, backtick, backtick] ++ lang ++ ['\n'] ++ t ++
    (if closing then '\n' :: [backtick, backtick, backtick] else [])

/-- Lists containing no brace characters; removing such affixes cannot
change the outermost brace span. -/
def braceFree (l : List Char) : Prop := lbrace ∉ l ∧ rbrace ∉ l

/-- v arises from u by removing a brace-free prefix and suffix. -/
def AffixOf (v u : List Char) : Prop :=
  ∃ a b, u = a ++ (v ++ b) ∧ braceFree a ∧ braceFree b

/-! ## json.loads model and parse_intent (lines 149-197) -/

/-- JSON whitespace accepted between tokens. -/
def jsonWs (c : Char) : Bool := c == ' ' || c == '\t' || c == '\n' || c == '\r'

/-- Skip JSON whitespace. -/
def skipWs (cs : List Char) : List Char := cs.dropWhile jsonWs

/-- JSON string escape characters. -/
def escChar (c : Char) : Option Char :=
  if c = '"' then some '"'
  else if c = '\\' then some '\\'
  else if c = '/' then some '/'
  else if c = 'b' then some (Char.ofNat 8)
  else if c = 'f' then some (Char.ofNat 12)
  else if c = 'n' then some '\n'
  else if c = 'r' then some '\r'
  else if c = 't' then some '\t'
  else none

/-- Hexadecimal digit value. -/
def hexDigit (c : Char) : Option Nat :=
  if isDigit c then some (c.toNat - 48)
  else if 'a' ≤ c && c ≤ 'f' then some (c.toNat - 87)
  else if 'A' ≤ c && c ≤ 'F' then some (c.toNat - 55)
  else none

/-- Body of a JSON string after the opening quote: returns the decoded
characters and the remainder after the closing quote. -/
def parseStringBody : List Char → Option (List Char × List Char)
  | [] => none
  | c :: rest =>
    if c = '"' then some ([], rest)
    else if c = '\\' then
      match rest with
      | [] => none
      | e :: rest2 =>
        if e = 'u' then
          match rest2 with
          | a :: b :: c2 :: d :: rest3 =>
            match hexDigit a, hexDigit b, hexDigit c2, hexDigit d with
            | some ha, some hb, some hc, some hd =>
              (parseStringBody rest3).map fun p =>
                (Char.ofNat (((ha * 16 + hb) * 16 + hc) * 16 + hd) :: p.1, p.2)
            | _, _, _, _ => none
          | _ => none
        else
          match escChar e with
          | some ec => (parseStringBody rest2).map fun p => (ec :: p.1, p.2)
          | none => none
    else (parseStringBody rest).map fun p => (c :: p.1, p.2)

/-- JSON integer literal (floats are not modelled; see JValue). -/
def parseNumber (cs : List Char) : Option (Int × List Char) :=
  match cs with
  | '-' :: rest =>
    if rest.takeWhile isDigit = [] then none
    else if (rest.takeWhile isDigit).length > 1 ∧
        (rest.takeWhile isDigit).head? = some '0' then none
    else some (-(digitsVal (rest.takeWhile isDigit) : Int), rest.dropWhile isDigit)
  | _ =>
    if cs.takeWhile isDigit = [] then none
    else if (cs.takeWhile isDigit).length > 1 ∧
        (cs.takeWhile isDigit).head? = some '0' then none
    else some ((digitsVal (cs.takeWhile isDigit) : Int), cs.dropWhile isDigit)

mutual

/-- Recursive-descent JSON value parser modelling json.loads; the fuel
decreases on every recursive call and the top-level entry supplies more
fuel than any parse can consume. -/
def parseJValue : Nat → List Char → Option (JValue × List Char)
  | 0, _ => none
  | Nat.succ fuel, cs =>
    match skipWs cs with
    | [] => none
    | c :: rest =>
      if c = lbrace then
        match skipWs rest with
        | c2 :: rest2 =>
          if c2 = rbrace then some (.jobj [], rest2)
          else (parseMembers fuel (skipWs rest)).map fun p => (.jobj p.1, p.2)
        | [] => none
      else if c = '[' then
        match skipWs rest with
        | c2 :: rest2 =>
          if c2 = ']' then some (.jarr [], rest2)
          else (parseElements fuel (skipWs rest)).map fun p => (.jarr p.1, p.2)
        | [] => none
      else if c = '"' then
        (parseStringBody rest).map fun p => (.jstr (String.mk p.1), p.2)
      else if c = 't' then
        match rest with
        | 'r' :: 'u' :: 'e' :: rest2 => some (.jbool true, rest2)
        | _ => none
      else if c = 'f' then
        match rest with
        | 'a' :: 'l' :: 's' :: 'e' :: rest2 => some (.jbool false, rest2)
        | _ => none
      else if c = 'n' then
        match rest with
        | 'u' :: 'l' :: 'l' :: rest2 => some (.jnull, rest2)
        | _ => none
      else (parseNumber (c :: rest)).map fun p => (.jint p.1, p.2)

/-- Members of a JSON object after the opening brace (nonempty case). -/
def parseMembers : Nat → List Char → Option (List (String × JValue) × List Char)
  | 0, _ => none
  | Nat.succ fuel, cs =>
    match skipWs cs with
    | c :: rest =>
      if c = '"' then
        match parseStringBody rest with
        | some (key, rest2) =>
          match skipWs rest2 with
          | ':' :: rest3 =>
            match parseJValue fuel rest3 with
            | some (v, rest4) =>
              match skipWs rest4 with
              | ',' :: rest5 =>
                (parseMembers fuel rest5).map fun p => ((String.mk key, v) :: p.1, p.2)
              | c5 :: rest5 => if c5 = rbrace then some ([(String.mk key, v)], rest5) else none
              | [] => none
            | none => none
          | _ => none
        | none => none
      else none
    | [] => none

/-- Elements of a JSON array after the opening bracket (nonempty case). -/
def parseElements : Nat → List Char → Option (List JValue × List Char)
  | 0, _ => none
  | Nat.succ fuel, cs =>
    match parseJValue fuel cs with
    | some (v, rest) =>
      match skipWs rest with
      | ',' :: rest2 => (parseElements fuel rest2).map fun p => (v :: p.1, p.2)
      | ']' :: rest2 => some ([v], rest2)
      | _ => none
    | none => none

end

/-- json.loads: parse one JSON value and require only whitespace after
it; any failure is a JSONDecodeError, a subclass of ValueError. -/
def json_loads (cs : List Char) : Except PyErr JValue :=
  match parseJValue (3 * cs.length + 3) cs with
  | some (v, rest) => if skipWs rest = [] then .ok v else .error .valueError
  | none => .error .valueError

/-- _extract_json_from_response (lines 74-92): locate the outermost
brace span and parse it with json.loads; ValueError when no span is
found or the span does not parse. -/
def extract_json_from_response (text : List Char) : Except PyErr JValue :=
  match extract_json_str text with
  | none => .error .valueError
  | some span => json_loads span

/-- Error outcomes of parse_intent, tagged by raise site: OllamaError
when the backend is unreachable (the ServiceUnavailable failure of the
design), the ValueError raised by _extract_json_from_response or
json.loads (the MalformedResponse failure), the AttributeError that
data.get would raise if json.loads returned a non-dict (unreachable for
spans that start with an opening brace), and the uncaught
ValueError/TypeError coercion failures escaping _json_to_spec. -/
inductive IntentError where
  | serviceUnavailable : IntentError
  | malformedResponse : IntentError
  | attributeError : IntentError
  | fieldCoercion : PyErr → IntentError
deriving Repr, DecidableEq

/-- parse_intent (lines 149-197): check backend availability, send the
prompt, extract and parse the JSON reply, and convert it to a
ClusterSpec.  The transport is modelled by its observable outcome: the
availability probe result and the raw reply text. -/
def parse_intent (available : Bool) (response : List Char) : Except IntentError ClusterSpec :=
  if available = false then .error .serviceUnavailable
  else
    match extract_json_from_response response with
    | .error _ => .error .malformedResponse
    | .ok (.jobj fields) =>
      match json_to_spec fields with
      | .error e => .error (.fieldCoercion e)
      | .ok spec => .ok spec
    | .ok _ => .error .attributeError

/-! ## Pipeline runner (orchestrator.py) -/

/-- The pipeline stages of orchestrator.py. -/
inductive Stage where
  | packer : Stage
  | terraform : Stage
  | ansible : Stage
  | addons : Stage
deriving Repr, DecidableEq

/-- Per-stage outcome record; elapsed wall time is environment-supplied
and modelled as an integer count of seconds. -/
structure StageResult where
  stage : Stage
  success : Bool
  duration_s : Int
  message : String
deriving Repr, DecidableEq

/-- The observable outcomes of the external tool invocations that _run
would perform without dry_run, plus the filesystem facts the runner
consults.  Each field is the StageResult the corresponding subprocess
call produces. -/
structure PipelineEnv where
  project_root : String
  packer_result : StageResult
  tf_init_result : StageResult
  tf_plan_result : StageResult
  tf_apply_result : StageResult
  ansible_result : StageResult
  addons_file_exists : Bool
  addons_result : StageResult

/-- The StageResult _run returns under dry_run (lines 37-43). -/
def dryResult (stage : Stage) (cmd : String) (cwd : String) : StageResult :=
  { stage, success := true, duration_s := 0,
    message := "[DRY RUN] Would execute: " ++ cmd ++ " (in " ++ cwd ++ ")" }

/-- run_packer (lines 71-74). -/
def run_packer (env : PipelineEnv) (dry_run : Bool) : StageResult :=
  if dry_run then dryResult .packer "packer build -force ." (env.project_root ++ "/packer")
  else env.packer_result

/-- run_terraform (lines 77-97): init, plan, then apply, returning early
on a non-dry-run failure of init or plan. -/
def run_terraform (env : PipelineEnv) (dry_run auto_approve : Bool) : StageResult :=
  let init_result := if dry_run
    then dryResult .terraform "terraform init" (env.project_root ++ "/terraform")
    else env.tf_init_result
  if !init_result.success && !dry_run then init_result
  else
    let plan_result := if dry_run
      then dryResult .terraform "terraform plan -out=tfplan" (env.project_root ++ "/terraform")
      else env.tf_plan_result
    if !plan_result.success && !dry_run then plan_result
    else if dry_run then
      dryResult .terraform
        (if auto_approve then "terraform apply -auto-approve tfplan" else "terraform apply tfplan")
        (env.project_root ++ "/terraform")
    else env.tf_apply_result

/-- run_ansible (lines 100-108). -/
def run_ansible (env : PipelineEnv) (spec : ClusterSpec) (dry_run : Bool) : StageResult :=
  if dry_run then
    dryResult .ansible "ansible-playbook -i inventory.ini site.yml" (env.project_root ++ "/ansible")
  else env.ansible_result

/-- run_addons (lines 111-124): succeeds trivially when the add-ons
playbook file is missing. -/
def run_addons (env : PipelineEnv) (spec : ClusterSpec) (dry_run : Bool) : StageResult :=
  if !env.addons_file_exists then
    { stage := .addons, success := true, duration_s := 0,
      message := "No add-ons playbook found, skipping." }
  else if dry_run then
    dryResult .addons "ansible-playbook -i inventory.ini addons.yml" (env.project_root ++ "/ansible")
  else env.addons_result

/-- The placeholder boot-wait entry appended in dry-run mode (line 165). -/
def bootWaitDry : StageResult :=
  { stage := .terraform, success := true, duration_s := 0,
    message := "[DRY RUN] Would wait 60s for VMs to boot" }

/-- run_pipeline (lines 127-178): optional packer stage, terraform,
boot wait, ansible, and add-ons when the spec lists any; a non-dry-run
stage failure returns the accumulated results immediately. -/
def run_pipeline (env : PipelineEnv) (spec : ClusterSpec)
    (skip_packer auto_approve dry_run : Bool) : List StageResult :=
  let packer_results := if !skip_packer then [run_packer env dry_run] else []
  if !skip_packer && !(run_packer env dry_run).success && !dry_run then packer_results
  else
    let r_tf := run_terraform env dry_run auto_approve
    if !r_tf.success && !dry_run then packer_results ++ [r_tf]
    else
      let results2 := if dry_run then (packer_results ++ [r_tf]) ++ [bootWaitDry]
        else packer_results ++ [r_tf]
      let r_ans := run_ansible env spec dry_run
      if !r_ans.success && !dry_run then results2 ++ [r_ans]
      else if !spec.addons.isEmpty then (results2 ++ [r_ans]) ++ [run_addons env spec dry_run]
      else results2 ++ [r_ans]

/-- A successful stage outcome used by the pipeline witness. -/
def stageOk (st : Stage) : StageResult :=
  { stage := st, success := true, duration_s := 1, message := "Completed in 1.0s" }

/-- Environment in which terraform apply fails and every other tool
succeeds. -/
def envTfFail : PipelineEnv :=
  { project_root := "/repo"
    packer_result := stageOk .packer
    tf_init_result := stageOk .terraform
    tf_plan_result := stageOk .terraform
    tf_apply_result :=
      { stage := .terraform, success := false, duration_s := 1,
        message := "Failed (exit code 1)" }
    ansible_result := stageOk .ansible
    addons_file_exists := true
    addons_result := stageOk .addons }

/-- A spec whose addons list is nonempty, enabling the fourth stage. -/
def specWithAddons : ClusterSpec := { addons := [.jstr "metrics-server"] }

/-! ## Proxmox discovery (proxmox_client.py) -/

/-- ProxmoxConfig (lines 12-20). -/
structure ProxmoxConfig where
  api_url : String := ""
  token_id : String := ""
  token_secret : String := ""
  target_node : String := "pve1"
  verify_ssl : Bool := false

/-- VMInfo (lines 23-32). -/
structure VMInfo where
  vmid : Int
  name : String
  status : String
  cores : Int := 0
  memory_mb : Int := 0
  ips : List String := []
deriving Repr, DecidableEq

/-- NodeResources (lines 35-44); the fractional CPU usage and the
storage figures are rationals standing for the Python floats. -/
structure NodeResources where
  cpu_total : Int := 0
  cpu_used : Rat := 0
  memory_total_mb : Int := 0
  memory_used_mb : Int := 0
  storage_total_gb : Rat := 0
  storage_used_gb : Rat := 0
deriving Repr, DecidableEq

/-- ProxmoxContext (lines 47-54). -/
structure ProxmoxContext where
  node_name : String := ""
  resources : NodeResources := {}
  existing_vms : List VMInfo := []
  used_ips : List String := []
deriving Repr, DecidableEq

/-- One raw entry of the /qemu guest listing; optional fields model the
dictionary .get defaults used in _get_vms. -/
structure QemuEntry where
  template : Option Int := none
  vmid : Option Int := none
  name : Option String := none
  status : Option String := none
  cpus : Option Int := none
  maxmem : Option Int := none

/-- The observable outcomes of the three Proxmox API query families made
during discovery; error models any exception escaping the query. -/
structure ProxmoxEnv where
  node_status : Except Unit NodeResources
  qemu_list : Except Unit (List QemuEntry)
  vm_ips : Int → Except Unit (List String)

/-- The VMInfo built from one /qemu entry in _get_vms (lines 167-188):
templates are skipped, field defaults mirror the .get calls, and the
per-guest IP query runs only for running guests, with its failure
swallowed. -/
def vm_of_entry (env : ProxmoxEnv) (entry : QemuEntry) : Option VMInfo :=
  if entry.template.getD 0 = 1 then none
  else
    some
      { vmid := entry.vmid.getD 0
        name := entry.name.getD ("vm-" ++ intStr (entry.vmid.getD 0))
        status := entry.status.getD "unknown"
        cores := entry.cpus.getD 0
        memory_mb := Int.fdiv (entry.maxmem.getD 0) (1024 * 1024)
        ips :=
          if entry.status.getD "unknown" = "running" then
            match env.vm_ips (entry.vmid.getD 0) with
            | .ok l => l
            | .error _ => []
          else [] }

/-- _get_vms (lines 162-190): list non-template guests; the listing
query itself can fail. -/
def get_vms (env : ProxmoxEnv) : Except Unit (List VMInfo) :=
  (env.qemu_list).map fun entries => entries.filterMap (vm_of_entry env)

/-- discover (lines 114-138): gather node resources and guests, each
failure independently swallowed, then flatten the guest IPs; a
ProxmoxContext is always returned. -/
def discover (env : ProxmoxEnv) (cfg : ProxmoxConfig) : ProxmoxContext :=
  let resources : NodeResources :=
    match env.node_status with
    | .ok r => r
    | .error _ => {}
  let existing_vms : List VMInfo :=
    match get_vms env with
    | .ok vms => vms
    | .error _ => []
  { node_name := cfg.target_node
    resources := resources
    existing_vms := existing_vms
    used_ips := existing_vms.foldl (fun acc vm => acc ++ vm.ips) [] }

/-- A running, non-template guest entry used by the discovery witness. -/
def entryRunning : QemuEntry :=
  { template := some 0, vmid := some 101, name := some "k8s-old"
    status := some "running", cpus := some 2, maxmem := some 2147483648 }

/-- Environment in which the node status query fails, the guest listing
succeeds, and every per-guest IP query fails. -/
def envPmx : ProxmoxEnv :=
  { node_status := .error ()
    qemu_list := .ok [entryRunning]
    vm_ips := fun _ => .error () }

/-! ## Theorems -/

/-! ## Decomposition lemmas for json_to_spec -/

theorem except_bind_ok {α β : Type} {e : Except PyErr α} {f : α → Except PyErr β} {b : β} :
    e.bind f = Except.ok b ↔ ∃ a, e = Except.ok a ∧ f a = Except.ok b := by
  cases e <;> simp [Except.bind]

theorem applyName_shape (d : List (String × JValue)) (s : ClusterSpec) :
    ∃ n p, applyName d s = { s with name := n, vm_name_prefix := p } := by
  unfold applyName
  cases d.lookup "name" with
  | none => exact ⟨s.name, s.vm_name_prefix, rfl⟩
  | some v =>
    by_cases hv : truthy v
    · exact ⟨v, pyStr v ++ "-node", by simp [hv]⟩
    · exact ⟨s.name, s.vm_name_prefix, by simp [hv]⟩

theorem applyCni_shape (d : List (String × JValue)) (s : ClusterSpec) :
    ∃ c pc, applyCni d s = { s with cni_plugin := c, pod_network_cidr := pc } := by
  unfold applyCni
  cases d.lookup "cni_plugin" with
  | none => exact ⟨s.cni_plugin, s.pod_network_cidr, rfl⟩
  | some v =>
    by_cases hv : truthy v
    · by_cases hc : pyEqStr v "calico"
      · exact ⟨v, "192.168.0.0/16", by simp [hv, hc]⟩
      · exact ⟨v, s.pod_network_cidr, by simp [hv, hc]⟩
    · exact ⟨s.cni_plugin, s.pod_network_cidr, by simp [hv]⟩

theorem applyK8s_shape (d : List (String × JValue)) (s : ClusterSpec) :
    ∃ m f, applyK8s d s = { s with k8s_version_minor := m, k8s_version_full := f } := by
  unfold applyK8s
  cases d.lookup "k8s_version" with
  | none => exact ⟨s.k8s_version_minor, s.k8s_version_full, rfl⟩
  | some v =>
    by_cases hv : truthy v
    · exact ⟨v, (versionLookup v).getD (pyStr v ++ ".0-1.1"), by simp [hv]⟩
    · exact ⟨s.k8s_version_minor, s.k8s_version_full, by simp [hv]⟩

theorem applyAddons_shape (d : List (String × JValue)) (s s' : ClusterSpec)
    (h : applyAddons d s = Except.ok s') : ∃ l, s' = { s with addons := l } := by
  unfold applyAddons at h
  revert h
  cases d.lookup "addons" with
  | none => intro h; exact ⟨s.addons, by cases h; rfl⟩
  | some v =>
    by_cases hv : truthy v
    · simp only [hv, if_true]
      cases hl : pyList v with
      | error e => intro h; simp [Except.map, hl] at h
      | ok l => intro h; exact ⟨l, by simpa [Except.map, hl] using h.symm⟩
    · intro h; exact ⟨s.addons, by simp [hv] at h; cases h; rfl⟩

theorem json_to_spec_ok_elim (data : List (String × JValue)) (s : ClusterSpec)
    (h : json_to_spec data = Except.ok s) :
    ∃ wc cpc wcores wmem ccores cmem ip_st,
      getIntOr data "worker_count" 2 = Except.ok wc ∧
      getIntOr data "control_plane_count" 1 = Except.ok cpc ∧
      getIntOr data "worker_cores" 2 = Except.ok wcores ∧
      getIntOr data "worker_memory_mb" 2048 = Except.ok wmem ∧
      getIntOr data "cp_cores" 2 = Except.ok ccores ∧
      getIntOr data "cp_memory_mb" 2048 = Except.ok cmem ∧
      getIntOr data "ip_start" 201 = Except.ok ip_st ∧
      applyAddons data (applyK8s data (applyCni data
        (mkSpec1 (applyName data {}) wc cpc wcores wmem ccores cmem ip_st))) = Except.ok s := by
  unfold json_to_spec at h
  simp only [except_bind_ok] at h
  obtain ⟨wc, h1, cpc, h2, wcores, h3, wmem, h4, ccores, h5, cmem, h6, ip_st, h7, h8⟩ := h
  exact ⟨wc, cpc, wcores, wmem, ccores, cmem, ip_st, h1, h2, h3, h4, h5, h6, h7, h8⟩

theorem json_to_spec_fields (data : List (String × JValue)) (s : ClusterSpec)
    (h : json_to_spec data = Except.ok s) :
    ∃ wc cpc wcores wmem ccores cmem ip_st,
      getIntOr data "worker_count" 2 = Except.ok wc ∧
      getIntOr data "control_plane_count" 1 = Except.ok cpc ∧
      getIntOr data "worker_cores" 2 = Except.ok wcores ∧
      getIntOr data "worker_memory_mb" 2048 = Except.ok wmem ∧
      getIntOr data "cp_cores" 2 = Except.ok ccores ∧
      getIntOr data "cp_memory_mb" 2048 = Except.ok cmem ∧
      getIntOr data "ip_start" 201 = Except.ok ip_st ∧
      s.worker_count = wc ∧ s.control_plane_count = cpc ∧
      s.worker_spec.cores = wcores ∧ s.worker_spec.memory_mb = wmem ∧
      s.control_plane_spec.cores = max ccores 2 ∧
      s.control_plane_spec.memory_mb = max cmem 2048 ∧
      s.ip_start = ip_st := by
  obtain ⟨wc, cpc, wcores, wmem, ccores, cmem, ip_st, h1, h2, h3, h4, h5, h6, h7, h8⟩ :=
    json_to_spec_ok_elim data s h
  obtain ⟨c, pc, hC⟩ := applyCni_shape data
    (mkSpec1 (applyName data {}) wc cpc wcores wmem ccores cmem ip_st)
  rw [hC] at h8
  obtain ⟨m, f, hK⟩ := applyK8s_shape data _
  rw [hK] at h8
  obtain ⟨l, hA⟩ := applyAddons_shape data _ s h8
  subst hA
  exact ⟨wc, cpc, wcores, wmem, ccores, cmem, ip_st, h1, h2, h3, h4, h5, h6, h7,
    rfl, rfl, rfl, rfl, rfl, rfl, rfl⟩

/-- C1: for every backend response object missing any subset of the
numeric fields, resolution still yields a ClusterSpec whose numeric
fields come from the defaults; in particular resolving the empty object
gives worker_count 2, control_plane_count 1, worker cores 2, worker
memory 2048, control-plane cores 2, control-plane memory 2048 and
ip_start 201. -/
theorem c1_numeric_defaults :
    (∃ s, json_to_spec [] = Except.ok s ∧ s.worker_count = 2 ∧ s.control_plane_count = 1 ∧
      s.worker_spec.cores = 2 ∧ s.worker_spec.memory_mb = 2048 ∧
      s.control_plane_spec.cores = 2 ∧ s.control_plane_spec.memory_mb = 2048 ∧
      s.ip_start = 201) ∧
    ∀ data s, json_to_spec data = Except.ok s →
      (data.lookup "worker_count" = none → s.worker_count = 2) ∧
      (data.lookup "control_plane_count" = none → s.control_plane_count = 1) ∧
      (data.lookup "worker_cores" = none → s.worker_spec.cores = 2) ∧
      (data.lookup "worker_memory_mb" = none → s.worker_spec.memory_mb = 2048) ∧
      (data.lookup "cp_cores" = none → s.control_plane_spec.cores = 2) ∧
      (data.lookup "cp_memory_mb" = none → s.control_plane_spec.memory_mb = 2048) ∧
      (data.lookup "ip_start" = none → s.ip_start = 201) := by
  constructor
  · exact ⟨_, rfl, rfl, rfl, rfl, rfl, rfl, rfl, rfl⟩
  · intro data s h
    obtain ⟨wc, cpc, wcores, wmem, ccores, cmem, ip_st, h1, h2, h3, h4, h5, h6, h7,
      e1, e2, e3, e4, e5, e6, e7⟩ := json_to_spec_fields data s h
    refine ⟨fun hn => ?_, fun hn => ?_, fun hn => ?_, fun hn => ?_,
            fun hn => ?_, fun hn => ?_, fun hn => ?_⟩
    · simp [getIntOr, hn] at h1; omega
    · simp [getIntOr, hn] at h2; omega
    · simp [getIntOr, hn] at h3; omega
    · simp [getIntOr, hn] at h4; omega
    · simp [getIntOr, hn] at h5; rw [e5, ← h5]; rfl
    · simp [getIntOr, hn] at h6; rw [e6, ← h6]; rfl
    · simp [getIntOr, hn] at h7; omega

/-- C2: in every successfully resolved spec, the control-plane cores are
max(parsed cp_cores or 2, 2) and the control-plane memory is
max(parsed cp_memory_mb or 2048, 2048), hence never below 2 cores and
2048 MB. -/
theorem c2_control_plane_floor :
    ∀ data s, json_to_spec data = Except.ok s →
      (∃ n, getIntOr data "cp_cores" 2 = Except.ok n ∧
        s.control_plane_spec.cores = max n 2) ∧
      (∃ m, getIntOr data "cp_memory_mb" 2048 = Except.ok m ∧
        s.control_plane_spec.memory_mb = max m 2048) ∧
      2 ≤ s.control_plane_spec.cores ∧ 2048 ≤ s.control_plane_spec.memory_mb := by
  intro data s h
  obtain ⟨wc, cpc, wcores, wmem, ccores, cmem, ip_st, h1, h2, h3, h4, h5, h6, h7,
    e1, e2, e3, e4, e5, e6, e7⟩ := json_to_spec_fields data s h
  refine ⟨⟨ccores, h5, e5⟩, ⟨cmem, h6, e6⟩, ?_, ?_⟩
  · rw [e5]; exact le_max_right _ _
  · rw [e6]; exact le_max_right _ _

/-- C10: a numeric field that is present but not coercible to an integer
(for example null, or a non-numeric string) makes the conversion raise an
uncaught ValueError/TypeError instead of falling back to the default. -/
theorem c10_uncoercible_raises :
    ∀ data k v e, k ∈ numericKeys → data.lookup k = some v → pyInt v = Except.error e →
      ∃ e2, json_to_spec data = Except.error e2 := by
  intro data k v e hk hl he
  cases hres : json_to_spec data with
  | error e2 => exact ⟨e2, rfl⟩
  | ok s =>
    exfalso
    obtain ⟨wc, cpc, wcores, wmem, ccores, cmem, ip_st, h1, h2, h3, h4, h5, h6, h7, _⟩ :=
      json_to_spec_fields data s hres
    simp only [numericKeys, List.mem_cons, List.mem_singleton] at hk
    rcases hk with rfl | rfl | rfl | rfl | rfl | rfl | rfl | h
    · simp only [getIntOr, hl] at h1; rw [he] at h1; simp at h1
    · simp only [getIntOr, hl] at h2; rw [he] at h2; simp at h2
    · simp only [getIntOr, hl] at h3; rw [he] at h3; simp at h3
    · simp only [getIntOr, hl] at h4; rw [he] at h4; simp at h4
    · simp only [getIntOr, hl] at h5; rw [he] at h5; simp at h5
    · simp only [getIntOr, hl] at h6; rw [he] at h6; simp at h6
    · simp only [getIntOr, hl] at h7; rw [he] at h7; simp at h7
    · cases h

/-- Witness for c10_uncoercible_raises at worker_count = null. -/
theorem c10_witness :
    ∃ e2, json_to_spec [("worker_count", JValue.jnull)] = Except.error e2 :=
  c10_uncoercible_raises [("worker_count", JValue.jnull)] "worker_count" JValue.jnull
    PyErr.typeError (by simp [numericKeys]) rfl rfl

theorem applyCni_none (d : List (String × JValue)) (s : ClusterSpec)
    (h : d.lookup "cni_plugin" = none) : applyCni d s = s := by
  simp [applyCni, h]

theorem applyCni_falsy (d : List (String × JValue)) (s : ClusterSpec) (v : JValue)
    (h : d.lookup "cni_plugin" = some v) (hv : truthy v = false) : applyCni d s = s := by
  simp [applyCni, h, hv]

theorem applyCni_calico (d : List (String × JValue)) (s : ClusterSpec) (v : JValue)
    (h : d.lookup "cni_plugin" = some v) (hv : truthy v = true)
    (hc : pyEqStr v "calico" = true) :
    applyCni d s = { s with cni_plugin := v, pod_network_cidr := "192.168.0.0/16" } := by
  simp [applyCni, h, hv, hc]

theorem applyCni_other (d : List (String × JValue)) (s : ClusterSpec) (v : JValue)
    (h : d.lookup "cni_plugin" = some v) (hv : truthy v = true)
    (hc : pyEqStr v "calico" = false) :
    applyCni d s = { s with cni_plugin := v } := by
  simp [applyCni, h, hv, hc]

theorem applyK8s_some (d : List (String × JValue)) (s : ClusterSpec) (v : JValue)
    (h : d.lookup "k8s_version" = some v) (hv : truthy v = true) :
    applyK8s d s = { s with
      k8s_version_minor := v
      k8s_version_full := (versionLookup v).getD (pyStr v ++ ".0-1.1") } := by
  simp [applyK8s, h, hv]

/-- C4: during resolution a backend value cni_plugin = calico forces
pod_network_cidr to 192.168.0.0/16; the recognized values flannel and
cilium pass through with the CIDR left at the model default
10.244.0.0/16; and an unrecognized or absent value leaves the model
default CIDR untouched. -/
theorem c4_cni_calico :
    ∀ data s, json_to_spec data = Except.ok s →
      (data.lookup "cni_plugin" = some (JValue.jstr "calico") →
        s.cni_plugin = JValue.jstr "calico" ∧ s.pod_network_cidr = "192.168.0.0/16") ∧
      (∀ p : String, p = "flannel" ∨ p = "cilium" →
        data.lookup "cni_plugin" = some (JValue.jstr p) →
        s.cni_plugin = JValue.jstr p ∧ s.pod_network_cidr = "10.244.0.0/16") ∧
      (data.lookup "cni_plugin" = none →
        s.cni_plugin = JValue.jstr "flannel" ∧ s.pod_network_cidr = "10.244.0.0/16") ∧
      (∀ v, data.lookup "cni_plugin" = some v → pyEqStr v "calico" = false →
        s.pod_network_cidr = "10.244.0.0/16") := by
  intro data s h
  obtain ⟨wc, cpc, wcores, wmem, ccores, cmem, ip_st, h1, h2, h3, h4, h5, h6, h7, h8⟩ :=
    json_to_spec_ok_elim data s h
  obtain ⟨n, p0, hN⟩ := applyName_shape data {}
  rw [hN] at h8
  refine ⟨fun hl => ?_, fun p hp hl => ?_, fun hl => ?_, fun v hl hc => ?_⟩
  · rw [applyCni_calico data _ _ hl (by decide) (by decide)] at h8
    obtain ⟨m, f, hK⟩ := applyK8s_shape data _
    rw [hK] at h8
    obtain ⟨l, hA⟩ := applyAddons_shape data _ s h8
    subst hA
    exact ⟨rfl, rfl⟩
  · have hcal : pyEqStr (JValue.jstr p) "calico" = false := by
      rcases hp with rfl | rfl <;> decide
    have htr : truthy (JValue.jstr p) = true := by
      rcases hp with rfl | rfl <;> decide
    rw [applyCni_other data _ _ hl htr hcal] at h8
    obtain ⟨m, f, hK⟩ := applyK8s_shape data _
    rw [hK] at h8
    obtain ⟨l, hA⟩ := applyAddons_shape data _ s h8
    subst hA
    exact ⟨rfl, rfl⟩
  · rw [applyCni_none data _ hl] at h8
    obtain ⟨m, f, hK⟩ := applyK8s_shape data _
    rw [hK] at h8
    obtain ⟨l, hA⟩ := applyAddons_shape data _ s h8
    subst hA
    exact ⟨rfl, rfl⟩
  · cases htr : truthy v with
    | false =>
      rw [applyCni_falsy data _ _ hl htr] at h8
      obtain ⟨m, f, hK⟩ := applyK8s_shape data _
      rw [hK] at h8
      obtain ⟨l, hA⟩ := applyAddons_shape data _ s h8
      subst hA
      rfl
    | true =>
      rw [applyCni_other data _ _ hl htr hc] at h8
      obtain ⟨m, f, hK⟩ := applyK8s_shape data _
      rw [hK] at h8
      obtain ⟨l, hA⟩ := applyAddons_shape data _ s h8
      subst hA
      rfl

/-- C5: a backend-supplied k8s_version string resolves
k8s_version_full through the fixed table version_map, synthesizing
minor.0-1.1 for minors not in the table; in particular 1.30 gives
1.30.8-1.1 and 1.99 gives 1.99.0-1.1. -/
theorem c5_version_table :
    (∀ data s m, json_to_spec data = Except.ok s →
      data.lookup "k8s_version" = some (JValue.jstr m) → m ≠ "" →
      s.k8s_version_minor = JValue.jstr m ∧
      s.k8s_version_full = (version_map.lookup m).getD (m ++ ".0-1.1")) ∧
    (∃ s, json_to_spec [("k8s_version", JValue.jstr "1.30")] = Except.ok s ∧
      s.k8s_version_full = "1.30.8-1.1") ∧
    (∃ s, json_to_spec [("k8s_version", JValue.jstr "1.99")] = Except.ok s ∧
      s.k8s_version_full = "1.99.0-1.1") := by
  refine ⟨?_, ⟨_, rfl, rfl⟩, ⟨_, rfl, rfl⟩⟩
  intro data s m h hl hm
  obtain ⟨wc, cpc, wcores, wmem, ccores, cmem, ip_st, h1, h2, h3, h4, h5, h6, h7, h8⟩ :=
    json_to_spec_ok_elim data s h
  have htr : truthy (JValue.jstr m) = true := by
    simp [truthy, hm]
  rw [applyK8s_some data _ _ hl htr] at h8
  obtain ⟨l, hA⟩ := applyAddons_shape data _ s h8
  subst hA
  exact ⟨rfl, rfl⟩

/-- Witness for c1_numeric_defaults at the empty object. -/
theorem c1_witness :
    resolvedEmpty.worker_count = 2 ∧ resolvedEmpty.control_plane_count = 1 := by
  have h := c1_numeric_defaults.2 [] resolvedEmpty rfl
  exact ⟨h.1 rfl, h.2.1 rfl⟩

/-- Witness for c2_control_plane_floor at the empty object. -/
theorem c2_witness :
    2 ≤ resolvedEmpty.control_plane_spec.cores ∧
    2048 ≤ resolvedEmpty.control_plane_spec.memory_mb := by
  have h := c2_control_plane_floor [] resolvedEmpty rfl
  exact ⟨h.2.2.1, h.2.2.2⟩

/-- Witness for c4_cni_calico at a calico-carrying object. -/
theorem c4_witness :
    resolvedCalico.cni_plugin = JValue.jstr "calico" ∧
    resolvedCalico.pod_network_cidr = "192.168.0.0/16" := by
  have h := c4_cni_calico [("cni_plugin", JValue.jstr "calico")] resolvedCalico rfl
  exact h.1 rfl

/-- Witness for c5_version_table at k8s_version 1.30. -/
theorem c5_witness :
    resolved130.k8s_version_full = (version_map.lookup "1.30").getD ("1.30" ++ ".0-1.1") := by
  have h := c5_version_table.1 [("k8s_version", JValue.jstr "1.30")] resolved130 "1.30"
    rfl rfl (by decide)
  exact h.2

/-! ## Injectivity of the decimal rendering, towards the IP-block claim -/

theorem digitChar_inj (a b : Nat) (ha : a < 10) (hb : b < 10)
    (h : Nat.digitChar a = Nat.digitChar b) : a = b := by
  interval_cases a <;> interval_cases b <;> revert h <;> decide

theorem map_digitChar_inj :
    ∀ l1 l2 : List Nat, (∀ x ∈ l1, x < 10) → (∀ x ∈ l2, x < 10) →
      l1.map Nat.digitChar = l2.map Nat.digitChar → l1 = l2 := by
  intro l1
  induction l1 with
  | nil =>
    intro l2 _ _ h
    cases l2 with
    | nil => rfl
    | cons b t2 => simp at h
  | cons a t ih =>
    intro l2 h1 h2 h
    cases l2 with
    | nil => simp at h
    | cons b t2 =>
      simp only [List.map_cons, List.cons.injEq] at h
      have hab : a = b :=
        digitChar_inj a b (h1 a (by simp)) (h2 b (by simp)) h.1
      have ht : t = t2 :=
        ih t2 (fun x hx => h1 x (by simp [hx])) (fun x hx => h2 x (by simp [hx])) h.2
      rw [hab, ht]

theorem natChars_inj (m n : Nat) (h : natChars m = natChars n) : m = n := by
  unfold natChars at h
  by_cases hm : m = 0 <;> by_cases hn : n = 0
  · omega
  · exfalso
    simp only [hm, if_true, if_neg hn] at h
    obtain ⟨d, ds, hds⟩ : ∃ d ds, Nat.digits 10 n = d :: ds := by
      cases hd : Nat.digits 10 n with
      | nil => exact absurd hd (Nat.digits_ne_nil_iff_ne_zero.mpr hn)
      | cons d ds => exact ⟨d, ds, rfl⟩
    rw [hds] at h
    have h2 := congrArg List.reverse h
    simp only [List.reverse_reverse] at h2
    simp only [List.map_cons] at h2
    have hd0 : Nat.digitChar d = '0' := by
      have := congrArg (fun l => l.headD ' ') h2
      simpa using this.symm
    have hds' : ds.map Nat.digitChar = [] := by
      have := congrArg List.tail h2
      simpa using this.symm
    have hdslen : ds = [] := by
      cases ds with
      | nil => rfl
      | cons x xs => simp at hds'
    have hd10 : d < 10 := Nat.digits_lt_base (by norm_num) (by rw [hds]; simp)
    have : d = 0 := digitChar_inj d 0 hd10 (by norm_num) (by simpa using hd0)
    have hofd := Nat.ofDigits_digits 10 n
    rw [hds, hdslen, this] at hofd
    simp [Nat.ofDigits] at hofd
    exact hn hofd.symm
  · exfalso
    simp only [hn, if_true, if_neg hm] at h
    obtain ⟨d, ds, hds⟩ : ∃ d ds, Nat.digits 10 m = d :: ds := by
      cases hd : Nat.digits 10 m with
      | nil => exact absurd hd (Nat.digits_ne_nil_iff_ne_zero.mpr hm)
      | cons d ds => exact ⟨d, ds, rfl⟩
    rw [hds] at h
    have h2 := congrArg List.reverse h
    simp only [List.reverse_reverse] at h2
    simp only [List.map_cons] at h2
    have hd0 : Nat.digitChar d = '0' := by
      have := congrArg (fun l => l.headD ' ') h2
      simpa using this
    have hds' : ds.map Nat.digitChar = [] := by
      have := congrArg List.tail h2
      simpa using this
    have hdslen : ds = [] := by
      cases ds with
      | nil => rfl
      | cons x xs => simp at hds'
    have hd10 : d < 10 := Nat.digits_lt_base (by norm_num) (by rw [hds]; simp)
    have : d = 0 := digitChar_inj d 0 hd10 (by norm_num) (by simpa using hd0)
    have hofd := Nat.ofDigits_digits 10 m
    rw [hds, hdslen, this] at hofd
    simp [Nat.ofDigits] at hofd
    exact hm hofd.symm
  · simp only [if_neg hm, if_neg hn] at h
    have h2 := congrArg List.reverse h
    simp only [List.reverse_reverse] at h2
    have hdig := map_digitChar_inj (Nat.digits 10 m) (Nat.digits 10 n)
      (fun x hx => Nat.digits_lt_base (by norm_num) hx)
      (fun x hx => Nat.digits_lt_base (by norm_num) hx) h2
    have h3 := Nat.ofDigits_digits 10 m
    rw [hdig, Nat.ofDigits_digits 10 n] at h3
    exact h3.symm

theorem natChars_ne_dash (n : Nat) : ∀ c ∈ natChars n, c ≠ '-' := by
  intro c hc
  unfold natChars at hc
  by_cases hn : n = 0
  · simp only [hn, if_true, List.mem_singleton] at hc
    rw [hc]; decide
  · simp only [if_neg hn, List.mem_reverse, List.mem_map] at hc
    obtain ⟨d, hd, rfl⟩ := hc
    have hd10 : d < 10 := Nat.digits_lt_base (by norm_num) hd
    interval_cases d <;> decide

theorem intStr_inj (a b : Int) (h : intStr a = intStr b) : a = b := by
  unfold intStr at h
  by_cases ha : a < 0 <;> by_cases hb : b < 0 <;>
    simp only [ha, hb, if_true, if_false, if_pos, if_neg, not_false_iff] at h
  · have hd : '-' :: natChars a.natAbs = '-' :: natChars b.natAbs := congrArg String.data h
    have := natChars_inj _ _ (List.cons.inj hd).2
    omega
  · exfalso
    have hd : '-' :: natChars a.natAbs = natChars b.natAbs := congrArg String.data h
    have : '-' ∈ natChars b.natAbs := by rw [← hd]; simp
    exact natChars_ne_dash _ _ this rfl
  · exfalso
    have hd : natChars a.natAbs = '-' :: natChars b.natAbs := congrArg String.data h
    have : '-' ∈ natChars a.natAbs := by rw [hd]; simp
    exact natChars_ne_dash _ _ this rfl
  · have hd : natChars a.natAbs = natChars b.natAbs := congrArg String.data h
    have := natChars_inj _ _ hd
    omega

theorem prefix_intStr_inj (p : String) (a b : Int) (h : p ++ intStr a = p ++ intStr b) :
    a = b := by
  apply intStr_inj
  have hd := congrArg String.data h
  simp only [String.data_append] at hd
  exact String.ext (List.append_cancel_left hd)

/-- C3: for every ClusterSpec with non-negative counts, the
control-plane IPs are control_plane_count addresses whose last octets
start at ip_start, the worker IPs are worker_count addresses starting
immediately after the control-plane block, the two blocks are contiguous
and do not overlap, and total_nodes equals the combined length. -/
theorem c3_ip_blocks :
    ∀ s : ClusterSpec, 0 ≤ s.control_plane_count → 0 ≤ s.worker_count →
      ((control_plane_ips s).length : Int) = s.control_plane_count ∧
      (∀ i, ∀ h : i < (control_plane_ips s).length,
        (control_plane_ips s).get ⟨i, h⟩ = s.ip_prefix ++ intStr (s.ip_start + i)) ∧
      ((worker_ips s).length : Int) = s.worker_count ∧
      (∀ j, ∀ h : j < (worker_ips s).length,
        (worker_ips s).get ⟨j, h⟩ =
          s.ip_prefix ++ intStr (s.ip_start + s.control_plane_count + j)) ∧
      (∀ x, x ∈ control_plane_ips s → x ∉ worker_ips s) ∧
      total_nodes s = s.control_plane_count + s.worker_count ∧
      ((all_ips s).length : Int) = total_nodes s := by
  intro s hcp hw
  have hlcp : (control_plane_ips s).length = s.control_plane_count.toNat := by
    simp only [control_plane_ips, List.length_map, List.length_range]
  have hlw : (worker_ips s).length = s.worker_count.toNat := by
    simp only [worker_ips, List.length_map, List.length_range]
  refine ⟨?_, ?_, ?_, ?_, ?_, rfl, ?_⟩
  · rw [hlcp, Int.toNat_of_nonneg hcp]
  · intro i h
    simp only [control_plane_ips, List.get_eq_getElem, List.getElem_map, List.getElem_range]
  · rw [hlw, Int.toNat_of_nonneg hw]
  · intro j h
    simp only [worker_ips, List.get_eq_getElem, List.getElem_map, List.getElem_range]
  · intro x hx hwx
    simp only [control_plane_ips, List.mem_map, List.mem_range] at hx
    simp only [worker_ips, List.mem_map, List.mem_range] at hwx
    obtain ⟨i, hi, hxi⟩ := hx
    obtain ⟨j, hj, hxj⟩ := hwx
    rw [← hxj] at hxi
    have hoct := prefix_intStr_inj _ _ _ hxi
    have hcpn : ((s.control_plane_count.toNat : Int)) = s.control_plane_count :=
      Int.toNat_of_nonneg hcp
    omega
  · rw [total_nodes, all_ips, List.length_append, hlcp, hlw]
    push_cast
    rw [Int.toNat_of_nonneg hcp, Int.toNat_of_nonneg hw]

/-- Witness for c3_ip_blocks at the default ClusterSpec. -/
theorem c3_witness :
    total_nodes ({} : ClusterSpec) = ({} : ClusterSpec).control_plane_count +
      ({} : ClusterSpec).worker_count := by
  have h := c3_ip_blocks {} (by decide) (by decide)
  exact h.2.2.2.2.2.1

theorem findIdx_append_no_hit (p : Char → Bool) (a d : List Char)
    (ha : ∀ x ∈ a, p x = false) :
    (a ++ d).findIdx p = a.length + d.findIdx p := by
  induction a with
  | nil => simp
  | cons c t ih =>
    have hc : p c = false := ha c (by simp)
    have iht := ih fun x hx => ha x (by simp [hx])
    simp only [List.cons_append, List.findIdx_cons, hc, cond_false, iht, List.length_cons]
    omega

theorem findIdx_append_hit (p : Char → Bool) (d b : List Char)
    (hd : ∃ x ∈ d, p x = true) :
    (d ++ b).findIdx p = d.findIdx p := by
  induction d with
  | nil => obtain ⟨x, hx, _⟩ := hd; simp at hx
  | cons c t ih =>
    by_cases hc : p c
    · simp [List.findIdx_cons, hc]
    · obtain ⟨x, hx, hpx⟩ := hd
      have hx2 : x ∈ t := by
        rcases List.mem_cons.mp hx with rfl | h
        · exact absurd hpx (by simp [hc])
        · exact h
      simp [List.findIdx_cons, hc, ih ⟨x, hx2, hpx⟩]

theorem drop_append_of_le (i : Nat) (d b : List Char) (h : i ≤ d.length) :
    (d ++ b).drop i = d.drop i ++ b := by
  induction d generalizing i with
  | nil =>
    have : i = 0 := by simpa using h
    subst this; simp
  | cons c t ih =>
    cases i with
    | zero => simp
    | succ n =>
      simp only [List.cons_append, List.drop_succ_cons]
      exact ih n (by simpa using h)

theorem sliceBraces_affix (a d b : List Char)
    (hba : braceFree a) (hbb : braceFree b)
    (hld : lbrace ∈ d) (hrd : rbrace ∈ d) :
    sliceBraces (a ++ (d ++ b)) = sliceBraces d := by
  obtain ⟨hla, hra⟩ := hba
  obtain ⟨hlb, hrb⟩ := hbb
  have hmem1 : lbrace ∈ a ++ (d ++ b) := by simp [hld]
  have hmem2 : rbrace ∈ a ++ (d ++ b) := by simp [hrd]
  rw [sliceBraces, sliceBraces, if_pos ⟨hmem1, hmem2⟩, if_pos ⟨hld, hrd⟩]
  have hpa : ∀ x ∈ a, (x == lbrace) = false := by
    intro x hx
    simp only [beq_eq_false_iff_ne, ne_eq]
    intro hcontra; rw [hcontra] at hx; exact hla hx
  have hhit : ∃ x ∈ d ++ b, (x == lbrace) = true := ⟨lbrace, by simp [hld]⟩
  have hhitd : ∃ x ∈ d, (x == lbrace) = true := ⟨lbrace, hld, by simp⟩
  have hi : (a ++ (d ++ b)).findIdx (fun c => c == lbrace) =
      a.length + d.findIdx (fun c => c == lbrace) := by
    rw [findIdx_append_no_hit _ _ _ hpa, findIdx_append_hit _ _ _ hhitd]
  have hid : d.findIdx (fun c => c == lbrace) < d.length :=
    List.findIdx_lt_length_of_exists hhitd
  -- the last closing brace, through the reversed list
  have hrev : (a ++ (d ++ b)).reverse = b.reverse ++ (d.reverse ++ a.reverse) := by
    simp [List.reverse_append]
  have hpb : ∀ x ∈ b.reverse, (x == rbrace) = false := by
    intro x hx
    simp only [beq_eq_false_iff_ne, ne_eq]
    intro hcontra; rw [hcontra] at hx; exact hrb (List.mem_reverse.mp hx)
  have hhitdr : ∃ x ∈ d.reverse, (x == rbrace) = true :=
    ⟨rbrace, List.mem_reverse.mpr hrd, by simp⟩
  have hj : (a ++ (d ++ b)).reverse.findIdx (fun c => c == rbrace) =
      b.length + d.reverse.findIdx (fun c => c == rbrace) := by
    rw [hrev, findIdx_append_no_hit _ _ _ hpb, findIdx_append_hit _ _ _ hhitdr,
      List.length_reverse]
  have hjd : d.reverse.findIdx (fun c => c == rbrace) < d.length := by
    have := List.findIdx_lt_length_of_exists hhitdr
    simpa using this
  congr 1
  set id0 := d.findIdx (fun c => c == lbrace) with hid0
  set jr0 := d.reverse.findIdx (fun c => c == rbrace) with hjr0
  have hlen : (a ++ (d ++ b)).length = a.length + d.length + b.length := by
    simp [List.length_append]; omega
  rw [hi, hj, hlen]
  have harith : a.length + d.length + b.length - 1 - (b.length + jr0) =
      a.length + (d.length - 1 - jr0) := by omega
  rw [harith]
  have hdrop : (a ++ (d ++ b)).drop (a.length + id0) = (d ++ b).drop id0 :=
    List.drop_append id0
  rw [hdrop, drop_append_of_le id0 d b (le_of_lt hid)]
  have harith2 : a.length + (d.length - 1 - jr0) + 1 - (a.length + id0) =
      d.length - 1 - jr0 + 1 - id0 := by omega
  rw [harith2]
  have hlen2 : d.length - 1 - jr0 + 1 - id0 ≤ (d.drop id0).length := by
    rw [List.length_drop]; omega
  rw [List.take_append_of_le_length hlen2]

theorem braceFree_nil : braceFree [] := ⟨by simp, by simp⟩

theorem braceFree_append {a b : List Char} (ha : braceFree a) (hb : braceFree b) :
    braceFree (a ++ b) := by
  obtain ⟨h1, h2⟩ := ha
  obtain ⟨h3, h4⟩ := hb
  constructor <;> simp_all

theorem braceFree_of_forall {l : List Char}
    (h : ∀ c ∈ l, c ≠ lbrace ∧ c ≠ rbrace) : braceFree l := by
  constructor
  · intro hc; exact (h _ hc).1 rfl
  · intro hc; exact (h _ hc).2 rfl

theorem pySpace_not_brace {c : Char} (h : pySpace c = true) : c ≠ lbrace ∧ c ≠ rbrace := by
  constructor <;> rintro rfl <;> simp [pySpace, lbrace, rbrace] at h

theorem wordChar_not_brace {c : Char} (h : wordChar c = true) : c ≠ lbrace ∧ c ≠ rbrace := by
  constructor <;> rintro rfl <;> simp [wordChar, lbrace, rbrace, Char.isAlphanum,
    Char.isAlpha, Char.isUpper, Char.isLower, Char.isDigit] at h

theorem affix_rfl (u : List Char) : AffixOf u u :=
  ⟨[], [], by simp, braceFree_nil, braceFree_nil⟩

theorem affix_trans {u v w : List Char} (h1 : AffixOf v u) (h2 : AffixOf w v) :
    AffixOf w u := by
  obtain ⟨a, b, hu, hba, hbb⟩ := h1
  obtain ⟨a2, b2, hv, hba2, hbb2⟩ := h2
  refine ⟨a ++ a2, b2 ++ b, ?_, braceFree_append hba hba2, braceFree_append hbb2 hbb⟩
  rw [hu, hv]
  simp [List.append_assoc]

theorem affix_mem_l {u v : List Char} (h : AffixOf v u) (hm : lbrace ∈ u) : lbrace ∈ v := by
  obtain ⟨a, b, hu, ⟨hba, _⟩, ⟨hbb, _⟩⟩ := h
  rw [hu] at hm
  simp only [List.mem_append] at hm
  rcases hm with h1 | h2 | h3
  · exact absurd h1 hba
  · exact h2
  · exact absurd h3 hbb

theorem affix_mem_r {u v : List Char} (h : AffixOf v u) (hm : rbrace ∈ u) : rbrace ∈ v := by
  obtain ⟨a, b, hu, ⟨_, hba⟩, ⟨_, hbb⟩⟩ := h
  rw [hu] at hm
  simp only [List.mem_append] at hm
  rcases hm with h1 | h2 | h3
  · exact absurd h1 hba
  · exact h2
  · exact absurd h3 hbb

theorem affix_slice {u v : List Char} (h : AffixOf v u) (hl : lbrace ∈ v) (hr : rbrace ∈ v) :
    sliceBraces u = sliceBraces v := by
  obtain ⟨a, b, hu, hba, hbb⟩ := h
  rw [hu]
  exact sliceBraces_affix a v b hba hbb hl hr

theorem pyStrip_affix (t : List Char) : AffixOf (pyStrip t) t := by
  refine ⟨t.takeWhile pySpace,
    ((t.dropWhile pySpace).reverse.takeWhile pySpace).reverse, ?_, ?_, ?_⟩
  · conv_lhs => rw [← List.takeWhile_append_dropWhile (p := pySpace) (l := t)]
    congr 1
    conv_lhs => rw [← List.reverse_reverse (t.dropWhile pySpace),
      ← List.takeWhile_append_dropWhile (p := pySpace) (l := (t.dropWhile pySpace).reverse)]
    rw [List.reverse_append, pyStrip]
  · exact braceFree_of_forall fun c hc => pySpace_not_brace (List.mem_takeWhile_imp hc)
  · exact braceFree_of_forall fun c hc =>
      pySpace_not_brace (List.mem_takeWhile_imp (List.mem_reverse.mp hc))

theorem stripOpenFence_affix (t : List Char)
    (htake : t.take 3 = [backtick, backtick, backtick]) :
    AffixOf (stripOpenFence t) t := by
  refine ⟨t.take 3 ++ ((t.drop 3).takeWhile wordChar ++
    ((t.drop 3).dropWhile wordChar).takeWhile pySpace), [], ?_, ?_, braceFree_nil⟩
  · rw [List.append_nil, stripOpenFence]
    conv_lhs => rw [← List.take_append_drop 3 t]
    rw [List.append_assoc]
    congr 1
    conv_lhs => rw [← List.takeWhile_append_dropWhile (p := wordChar) (l := t.drop 3)]
    rw [List.append_assoc]
    congr 1
    conv_lhs => rw [← List.takeWhile_append_dropWhile (p := pySpace)
      (l := (t.drop 3).dropWhile wordChar)]
  · refine braceFree_append (braceFree_of_forall ?_)
      (braceFree_append (braceFree_of_forall ?_) (braceFree_of_forall ?_))
    · intro c hc
      rw [htake] at hc
      simp only [List.mem_cons, List.mem_singleton] at hc
      rcases hc with rfl | rfl | rfl | h
      · constructor <;> decide
      · constructor <;> decide
      · constructor <;> decide
      · simp at h
    · exact fun c hc => wordChar_not_brace (List.mem_takeWhile_imp hc)
    · exact fun c hc => pySpace_not_brace (List.mem_takeWhile_imp hc)

theorem stripCloseFence_affix (cs : List Char) : AffixOf (stripCloseFence cs) cs := by
  rw [stripCloseFence]
  by_cases h3 : (cs.reverse.dropWhile pySpace).take 3 = [backtick, backtick, backtick]
  · rw [if_pos h3]
    have hWfree : braceFree (cs.reverse.takeWhile pySpace).reverse :=
      braceFree_of_forall fun c hc =>
        pySpace_not_brace (List.mem_takeWhile_imp (List.mem_reverse.mp hc))
    have hTfree : braceFree ((cs.reverse.dropWhile pySpace).take 3).reverse := by
      rw [h3]
      refine braceFree_of_forall ?_
      intro c hc
      simp only [List.reverse_cons, List.reverse_nil, List.nil_append, List.singleton_append,
        List.cons_append, List.mem_cons, List.not_mem_nil, or_false, List.mem_singleton] at hc
      rcases hc with rfl | rfl | rfl <;> exact ⟨by decide, by decide⟩
    have hrest : (cs.reverse.dropWhile pySpace).reverse =
        ((cs.reverse.dropWhile pySpace).drop 3).reverse ++
          ((cs.reverse.dropWhile pySpace).take 3).reverse := by
      conv_lhs => rw [← List.take_append_drop 3 (cs.reverse.dropWhile pySpace)]
      rw [List.reverse_append]
    have hcs : cs = ((cs.reverse.dropWhile pySpace).drop 3).reverse ++
        (((cs.reverse.dropWhile pySpace).take 3).reverse ++
          (cs.reverse.takeWhile pySpace).reverse) := by
      conv_lhs => rw [← List.reverse_reverse cs]
      conv_lhs => rw [← List.takeWhile_append_dropWhile (p := pySpace) (l := cs.reverse)]
      rw [List.reverse_append, hrest, List.append_assoc]
    by_cases hh : ((cs.reverse.dropWhile pySpace).drop 3).head? = some '\n'
    · rw [if_pos hh]
      obtain ⟨tl, htl⟩ : ∃ tl, (cs.reverse.dropWhile pySpace).drop 3 = '\n' :: tl := by
        cases hr2 : (cs.reverse.dropWhile pySpace).drop 3 with
        | nil => rw [hr2] at hh; simp at hh
        | cons c tl =>
          rw [hr2] at hh
          simp only [List.head?_cons, Option.some.injEq] at hh
          exact ⟨tl, by rw [hh]⟩
      refine ⟨[], '\n' :: (((cs.reverse.dropWhile pySpace).take 3).reverse ++
        (cs.reverse.takeWhile pySpace).reverse), ?_, braceFree_nil, ?_⟩
      · rw [List.nil_append, htl]
        simp only [List.drop_succ_cons, List.drop_zero]
        conv_lhs => rw [hcs, htl]
        rw [List.reverse_cons]
        simp [List.append_assoc]
      · exact braceFree_append (a := ['\n'])
          ⟨by decide, by decide⟩ (braceFree_append hTfree hWfree)
    · rw [if_neg hh]
      refine ⟨[], ((cs.reverse.dropWhile pySpace).take 3).reverse ++
        (cs.reverse.takeWhile pySpace).reverse, ?_, braceFree_nil,
        braceFree_append hTfree hWfree⟩
      rw [List.nil_append]
      exact hcs
  · rw [if_neg h3]
    exact affix_rfl cs

theorem extract_json_str_eq (t : List Char) (hl : lbrace ∈ t) (hr : rbrace ∈ t) :
    extract_json_str t = sliceBraces t := by
  rw [extract_json_str]
  by_cases hf : (pyStrip t).take 3 = [backtick, backtick, backtick]
  · rw [if_pos hf]
    have h1 := pyStrip_affix t
    have h2 := stripOpenFence_affix (pyStrip t) hf
    have h3 := stripCloseFence_affix (stripOpenFence (pyStrip t))
    have h4 := pyStrip_affix (stripCloseFence (stripOpenFence (pyStrip t)))
    have hall := affix_trans h1 (affix_trans h2 (affix_trans h3 h4))
    exact (affix_slice hall (affix_mem_l hall hl) (affix_mem_r hall hr)).symm
  · rw [if_neg hf]
    have h1 := pyStrip_affix t
    exact (affix_slice h1 (affix_mem_l h1 hl) (affix_mem_r h1 hr)).symm

theorem fenceWrap_affix (lang : List Char) (closing : Bool) (t : List Char)
    (hlang : ∀ c ∈ lang, wordChar c = true) : AffixOf t (fenceWrap lang closing t) := by
  refine ⟨[backtick, backtick, backtick] ++ (lang ++ ['\n']),
    (if closing then '\n' :: [backtick, backtick, backtick] else []), ?_, ?_, ?_⟩
  · rw [fenceWrap]
    simp [List.append_assoc]
  · refine braceFree_append ⟨by decide, by decide⟩
      (braceFree_append ?_ ⟨by decide, by decide⟩)
    exact braceFree_of_forall fun c hc => wordChar_not_brace (hlang c hc)
  · cases closing
    · exact braceFree_nil
    · exact ⟨by decide, by decide⟩

theorem extract_json_str_fence_invariant (t lang : List Char) (closing : Bool)
    (hl : lbrace ∈ t) (hr : rbrace ∈ t) (hlang : ∀ c ∈ lang, wordChar c = true) :
    extract_json_str (fenceWrap lang closing t) = extract_json_str t := by
  have hw := fenceWrap_affix lang closing t hlang
  have hlw : lbrace ∈ fenceWrap lang closing t := by
    obtain ⟨a, b, hu, _, _⟩ := hw
    rw [hu]; simp [hl]
  have hrw : rbrace ∈ fenceWrap lang closing t := by
    obtain ⟨a, b, hu, _, _⟩ := hw
    rw [hu]; simp [hr]
  rw [extract_json_str_eq _ hlw hrw, extract_json_str_eq _ hl hr]
  exact affix_slice hw hl hr

/-- C6: wrapping a reply that contains a structured object in markdown
presentation fences (an opening fence with an optional language tag and
an optional trailing fence) does not change the extracted object: both
the parsed result and the raw extracted span agree with the unwrapped
reply. -/
theorem c6_fence_wrapping :
    ∀ (t lang : List Char) (closing : Bool), lbrace ∈ t → rbrace ∈ t →
      (∀ c ∈ lang, wordChar c = true) →
      extract_json_from_response (fenceWrap lang closing t) =
        extract_json_from_response t ∧
      extract_json_str (fenceWrap lang closing t) = extract_json_str t := by
  intro t lang closing hl hr hlang
  have hspan := extract_json_str_fence_invariant t lang closing hl hr hlang
  refine ⟨?_, hspan⟩
  rw [extract_json_from_response, extract_json_from_response, hspan]

/-- Witness for c6_fence_wrapping: the two-character object wrapped in a
json-tagged fence with a closing fence. -/
theorem c6_witness :
    extract_json_from_response
        (fenceWrap ['j', 's', 'o', 'n'] true [lbrace, rbrace]) =
      extract_json_from_response [lbrace, rbrace] :=
  (c6_fence_wrapping [lbrace, rbrace] ['j', 's', 'o', 'n'] true
    (by decide) (by decide) (by decide)).1

/-- C8: intent resolution fails with the ServiceUnavailable error
exactly when the backend is unreachable, fails with the
MalformedResponse error exactly when the backend is reachable but its
reply contains no locatable, parseable structured-object span, and in
every failure case no ClusterSpec is returned: a returned spec implies
the reply parsed and converted successfully. -/
theorem c8_error_taxonomy :
    ∀ (available : Bool) (response : List Char),
      (parse_intent available response = Except.error IntentError.serviceUnavailable ↔
        available = false) ∧
      (parse_intent available response = Except.error IntentError.malformedResponse ↔
        available = true ∧ ∃ e, extract_json_from_response response = Except.error e) ∧
      (∀ s, parse_intent available response = Except.ok s →
        available = true ∧ ∃ fields,
          extract_json_from_response response = Except.ok (JValue.jobj fields) ∧
          json_to_spec fields = Except.ok s) := by
  intro available response
  cases available with
  | false =>
    refine ⟨by simp [parse_intent], ?_, ?_⟩
    · simp [parse_intent]
    · intro s h
      simp [parse_intent] at h
  | true =>
    cases hex : extract_json_from_response response with
    | error e =>
      refine ⟨?_, ?_, ?_⟩
      · simp [parse_intent, hex]
      · simp [parse_intent, hex]
      · intro s h
        simp [parse_intent, hex] at h
    | ok v =>
      cases v with
      | jobj fields =>
        cases hspec : json_to_spec fields with
        | error e =>
          refine ⟨?_, ?_, ?_⟩
          · simp [parse_intent, hex, hspec]
          · simp [parse_intent, hex, hspec]
          · intro s h
            simp [parse_intent, hex, hspec] at h
        | ok spec =>
          refine ⟨?_, ?_, ?_⟩
          · simp [parse_intent, hex, hspec]
          · simp [parse_intent, hex, hspec]
          · intro s h
            simp only [parse_intent, Bool.true_eq_false, if_false, hex, hspec] at h
            cases h
            exact ⟨rfl, fields, by simp [hex], hspec⟩
      | jnull =>
        refine ⟨by simp [parse_intent, hex], by simp [parse_intent, hex], ?_⟩
        intro s h
        simp [parse_intent, hex] at h
      | jbool b =>
        refine ⟨by simp [parse_intent, hex], by simp [parse_intent, hex], ?_⟩
        intro s h
        simp [parse_intent, hex] at h
      | jint n =>
        refine ⟨by simp [parse_intent, hex], by simp [parse_intent, hex], ?_⟩
        intro s h
        simp [parse_intent, hex] at h
      | jstr str =>
        refine ⟨by simp [parse_intent, hex], by simp [parse_intent, hex], ?_⟩
        intro s h
        simp [parse_intent, hex] at h
      | jarr xs =>
        refine ⟨by simp [parse_intent, hex], by simp [parse_intent, hex], ?_⟩
        intro s h
        simp [parse_intent, hex] at h

/-- Witness for c8_error_taxonomy: an unreachable backend yields the
ServiceUnavailable error. -/
theorem c8_witness :
    parse_intent false [] = Except.error IntentError.serviceUnavailable :=
  (c8_error_taxonomy false []).1.mpr rfl

theorem mem_packer_results_success (env : PipelineEnv) (sp : Bool)
    (h1 : ¬(!sp && !(run_packer env false).success && !false) = true) :
    ∀ r ∈ (if !sp then [run_packer env false] else []), r.success = true := by
  intro r hr
  cases sp with
  | true => simp at hr
  | false =>
    simp only [Bool.not_false, if_true] at hr
    simp only [List.mem_singleton] at hr
    subst hr
    simp only [Bool.not_false, Bool.and_true, Bool.true_and] at h1
    cases hs : (run_packer env false).success
    · exact absurd (by simp [hs]) h1
    · rfl

/-- C7: in a non-dry-run pipeline only the last recorded stage can have
failed (the sequence halts at the first failure, preserving prior
results), and in the concrete four-stage scenario where terraform apply
fails the result list is exactly the packer result followed by the
failed terraform result, with ansible and add-ons absent. -/
theorem c7_halt_on_failure :
    (∀ (env : PipelineEnv) (spec : ClusterSpec) (skip_packer auto_approve : Bool),
      ∀ r ∈ (run_pipeline env spec skip_packer auto_approve false).dropLast,
        r.success = true) ∧
    (∀ (env : PipelineEnv) (spec : ClusterSpec) (auto_approve : Bool),
      env.packer_result.success = true →
      env.tf_init_result.success = true →
      env.tf_plan_result.success = true →
      env.tf_apply_result.success = false →
      spec.addons ≠ [] →
      run_pipeline env spec false auto_approve false =
        [env.packer_result, env.tf_apply_result]) := by
  constructor
  · intro env spec sp aa r hr
    rw [run_pipeline] at hr
    by_cases h1 : (!sp && !(run_packer env false).success && !false) = true
    · rw [if_pos h1] at hr
      have hsp : sp = false := by
        cases sp
        · rfl
        · simp at h1
      rw [hsp] at hr
      simp only [Bool.not_false, if_true] at hr
      simp at hr
    · rw [if_neg h1] at hr
      by_cases h2 : (!(run_terraform env false aa).success && !false) = true
      · rw [if_pos h2] at hr
        rw [List.dropLast_concat] at hr
        exact mem_packer_results_success env sp h1 r hr
      · rw [if_neg h2] at hr
        simp only [Bool.false_eq_true, if_false] at hr
        have htf : (run_terraform env false aa).success = true := by
          cases hs : (run_terraform env false aa).success
          · exact absurd (by simp [hs]) h2
          · rfl
        by_cases h3 : (!(run_ansible env spec false).success && !false) = true
        · rw [if_pos h3] at hr
          rw [List.dropLast_concat] at hr
          rcases List.mem_append.mp hr with h | h
          · exact mem_packer_results_success env sp h1 r h
          · rw [List.mem_singleton] at h
            rw [h]
            exact htf
        · rw [if_neg h3] at hr
          have hans : (run_ansible env spec false).success = true := by
            cases hs : (run_ansible env spec false).success
            · exact absurd (by simp [hs]) h3
            · rfl
          by_cases h4 : (!spec.addons.isEmpty) = true
          · rw [if_pos h4] at hr
            rw [List.dropLast_concat] at hr
            rcases List.mem_append.mp hr with h | h
            · rcases List.mem_append.mp h with h | h
              · exact mem_packer_results_success env sp h1 r h
              · rw [List.mem_singleton] at h
                rw [h]
                exact htf
            · rw [List.mem_singleton] at h
              rw [h]
              exact hans
          · rw [if_neg h4] at hr
            rw [List.dropLast_concat] at hr
            rcases List.mem_append.mp hr with h | h
            · exact mem_packer_results_success env sp h1 r h
            · rw [List.mem_singleton] at h
              rw [h]
              exact htf
  · intro env spec aa h1 h2 h3 h4 h5
    have h5b : spec.addons.isEmpty = false := by
      cases hs : spec.addons
      · exact absurd hs h5
      · simp [hs]
    simp [run_pipeline, run_packer, run_terraform, h1, h2, h3, h4, h5b]

/-- Witness for c7_halt_on_failure: the concrete failing-terraform
scenario. -/
theorem c7_witness :
    run_pipeline envTfFail specWithAddons false false false =
      [envTfFail.packer_result, envTfFail.tf_apply_result] :=
  c7_halt_on_failure.2 envTfFail specWithAddons false rfl rfl rfl rfl
    (by simp [specWithAddons])

/-- C9: discovery always returns a ProxmoxContext, with each telemetry
failure swallowed independently: a node-resource query failure leaves
the zero-valued NodeResources, a guest-list failure leaves the VM and IP
lists empty, each succeeding query still populates its own field, and a
per-guest IP discovery failure leaves that guest in the list with no
IPs while guests whose query succeeds keep theirs. -/
theorem c9_discover_best_effort :
    ∀ (env : ProxmoxEnv) (cfg : ProxmoxConfig),
      (env.node_status = Except.error () →
        (discover env cfg).resources = ({} : NodeResources)) ∧
      (env.qemu_list = Except.error () →
        (discover env cfg).existing_vms = [] ∧ (discover env cfg).used_ips = []) ∧
      (∀ r, env.node_status = Except.ok r → (discover env cfg).resources = r) ∧
      (∀ entries, env.qemu_list = Except.ok entries →
        (discover env cfg).existing_vms = entries.filterMap (vm_of_entry env)) ∧
      (∀ entries e, env.qemu_list = Except.ok entries → e ∈ entries →
        e.template.getD 0 ≠ 1 → e.status.getD "unknown" = "running" →
        env.vm_ips (e.vmid.getD 0) = Except.error () →
        ∃ vm ∈ (discover env cfg).existing_vms,
          vm.vmid = e.vmid.getD 0 ∧ vm.ips = []) ∧
      (∀ entries e l, env.qemu_list = Except.ok entries → e ∈ entries →
        e.template.getD 0 ≠ 1 → e.status.getD "unknown" = "running" →
        env.vm_ips (e.vmid.getD 0) = Except.ok l →
        ∃ vm ∈ (discover env cfg).existing_vms,
          vm.vmid = e.vmid.getD 0 ∧ vm.ips = l) := by
  intro env cfg
  refine ⟨?_, ?_, ?_, ?_, ?_, ?_⟩
  · intro h
    simp [discover, h]
  · intro h
    constructor <;> simp [discover, get_vms, h, Except.map]
  · intro r h
    simp [discover, h]
  · intro entries h
    simp [discover, get_vms, h, Except.map]
  · intro entries e hq he ht hs hip
    refine ⟨{ vmid := e.vmid.getD 0
              name := e.name.getD ("vm-" ++ intStr (e.vmid.getD 0))
              status := e.status.getD "unknown"
              cores := e.cpus.getD 0
              memory_mb := Int.fdiv (e.maxmem.getD 0) (1024 * 1024)
              ips := [] }, ?_, rfl, rfl⟩
    simp only [discover, get_vms, hq, Except.map]
    exact List.mem_filterMap.mpr ⟨e, he, by simp [vm_of_entry, ht, hs, hip]⟩
  · intro entries e l hq he ht hs hip
    refine ⟨{ vmid := e.vmid.getD 0
              name := e.name.getD ("vm-" ++ intStr (e.vmid.getD 0))
              status := e.status.getD "unknown"
              cores := e.cpus.getD 0
              memory_mb := Int.fdiv (e.maxmem.getD 0) (1024 * 1024)
              ips := l }, ?_, rfl, rfl⟩
    simp only [discover, get_vms, hq, Except.map]
    exact List.mem_filterMap.mpr ⟨e, he, by simp [vm_of_entry, ht, hs, hip]⟩

/-- Witness for c9_discover_best_effort: a failing node-status query
leaves the zero-valued resources. -/
theorem c9_witness : (discover envPmx {}).resources = ({} : NodeResources) :=
  (c9_discover_best_effort envPmx {}).1 rfl
